import Mathlib

/-!
Shallow embedding of the points-redemption valuation engine of the
dc-miami-flight-analyzer repository.

Sources embedded here:
* `src/data/transferPartners.ts` (the static reference catalog, the
  `getPartnersForProgram` and `getBestDomesticPartner` helpers);
* `src/utils/pointsCalculator.ts` (CPP computation, redemption ranking and
  the cash-vs-points decision engine).

Numbers are modelled as exact rationals (`ℚ`); the TS code manipulates
small decimal constants for which rational arithmetic agrees with the
intended real-number semantics.  Narrative strings are reproduced; the
digit rendering of `toFixed` / `toLocaleString` is modelled by explicit
deterministic formatters whose output depends only on the number shown.

Following the design note of the specification (section 9), the module
level catalog constant is threaded as an explicit parameter: each
`...In` function takes the catalog as its first argument, and the
repository functions are the instances at the static `TRANSFER_PARTNERS`
catalog.
-/

set_option autoImplicit false
set_option linter.unnecessarySeqFocus false

namespace FlightAnalyzer

/-- Airport codes of `src/types` (enum `AirportCode`). -/
inductive AirportCode where
  | DCA | IAD | BWI | MIA | FLL
deriving DecidableEq, Repr

/-- Value statuses of `src/types` (enum `ValueStatus`). -/
inductive ValueStatus where
  | CASH_DEAL | CHECK_POINTS | STANDARD
deriving DecidableEq, Repr

/-- Cabin classes.  Flight offers carry only `Economy` or `First`
(the TS union type of `FlightOffer.cabin`); sweet spots may also declare
`Business`. -/
inductive Cabin where
  | Economy | First | Business
deriving DecidableEq, Repr

/-- The five source loyalty programs (`PointsProgram` in
`src/data/transferPartners.ts`). -/
inductive PointsProgram where
  | MR | UR | TYP | C1 | BILT
deriving DecidableEq, Repr

/-- Qualitative tier of a redemption (`RedemptionOption.recommendation`). -/
inductive RecTier where
  | EXCELLENT | GOOD | FAIR | POOR
deriving DecidableEq, Repr

/-- Cash-vs-points verdict (the TS union of CASH and POINTS). -/
inductive BestOption where
  | CASH | POINTS
deriving DecidableEq, Repr

/-- A flight offer (`FlightOffer` in `src/types`).  The engine reads only
`price` and `cabin`; the remaining fields are opaque metadata passed
through for display. -/
structure FlightOffer where
  id : String
  date : String
  airline : String
  flightNumber : String
  departureTime : String
  origin : AirportCode
  destination : AirportCode
  price : ℚ
  currency : String
  status : ValueStatus
  stops : ℕ
  cabin : Cabin
deriving DecidableEq

/-- A sweet spot entry (`SweetSpot` in `src/data/transferPartners.ts`). -/
structure SweetSpot where
  description : String
  points : ℚ
  taxes : ℚ
  cabin : Cabin
  routePattern : Option String
deriving DecidableEq

/-- A saver/standard award-price pair for one cabin. -/
structure AwardChart where
  saver : ℚ
  standard : ℚ
deriving DecidableEq

/-- A transfer partner (`TransferPartner` in
`src/data/transferPartners.ts`).  The TS `transferRatios` object literal
(a partial record from program to ratio) is modelled as an association
list queried by `ratioFor`. -/
structure TransferPartner where
  id : String
  name : String
  code : String
  programs : List PointsProgram
  transferRatios : List (PointsProgram × ℚ)
  domesticEconomy : AwardChart
  domesticFirst : AwardChart
  domesticBusiness : Option AwardChart
  valuationCPP : ℚ
  sweetSpots : List SweetSpot
  bookingUrl : String
  notes : Option String
deriving DecidableEq

/-- Lookup of `partner.transferRatios[program]` on the association-list
model of the TS record. -/
def ratioFor (rs : List (PointsProgram × ℚ)) (program : PointsProgram) : Option ℚ :=
  (rs.find? (fun e => e.1 == program)).map Prod.snd

/-- JS `x || 1.0` on an optional number: `undefined` and the falsy `0`
both fall back to `1.0`.  (No catalog entry declares a zero ratio, so on
the static data this agrees with a plain default-if-absent.) -/
def orElseOne (x : Option ℚ) : ℚ :=
  match x with
  | none => 1
  | some v => if v = 0 then 1 else v

/-- Metadata of a source program (`POINTS_PROGRAMS` values). -/
structure ProgramMeta where
  name : String
  fullName : String
  valuationCPP : ℚ
  color : String
deriving DecidableEq

/-- Program metadata table `POINTS_PROGRAMS` of `src/data/transferPartners.ts`. -/
def POINTS_PROGRAMS : PointsProgram → ProgramMeta
  | .MR => { name := "Amex MR", fullName := "American Express Membership Rewards",
             valuationCPP := 2.0, color := "#006FCF" }
  | .UR => { name := "Chase UR", fullName := "Chase Ultimate Rewards",
             valuationCPP := 2.0, color := "#1A4480" }
  | .TYP => { name := "Citi TYP", fullName := "Citi ThankYou Points",
              valuationCPP := 1.8, color := "#003B70" }
  | .C1 => { name := "Capital One", fullName := "Capital One Miles",
             valuationCPP := 1.85, color := "#D03027" }
  | .BILT => { name := "Bilt", fullName := "Bilt Rewards Points",
               valuationCPP := 1.8, color := "#000000" }

/-- Catalog entry `avianca`. -/
def avianca : TransferPartner :=
  { id := "avianca", name := "Avianca LifeMiles", code := "AV",
    programs := [.MR, .UR, .TYP, .C1, .BILT],
    transferRatios := [(.MR, 1.0), (.UR, 1.0), (.TYP, 1.0), (.C1, 1.0), (.BILT, 1.0)],
    domesticEconomy := { saver := 10000, standard := 15000 },
    domesticFirst := { saver := 20000, standard := 30000 },
    domesticBusiness := none,
    valuationCPP := 1.4,
    sweetSpots :=
      [ { description := "Domestic Economy - THE Sweet Spot (Star Alliance)",
          points := 10000, taxes := 5.60, cabin := .Economy, routePattern := none },
        { description := "Domestic First Class",
          points := 20000, taxes := 5.60, cabin := .First, routePattern := none } ],
    bookingUrl := "https://www.lifemiles.com/",
    notes := some "Best value for domestic flights. Books United, AA, and other partners." }

/-- Catalog entry `british-airways`. -/
def britishAirways : TransferPartner :=
  { id := "british-airways", name := "British Airways Avios", code := "BA",
    programs := [.MR, .UR, .TYP, .C1, .BILT],
    transferRatios := [(.MR, 1.0), (.UR, 1.0), (.TYP, 1.0), (.C1, 1.0), (.BILT, 1.0)],
    domesticEconomy := { saver := 11000, standard := 16500 },
    domesticFirst := { saver := 22000, standard := 33000 },
    domesticBusiness := none,
    valuationCPP := 1.5,
    sweetSpots :=
      [ { description := "Short-haul AA flights (under 1151 miles)",
          points := 11000, taxes := 5.60, cabin := .Economy, routePattern := none } ],
    bookingUrl := "https://www.britishairways.com/",
    notes := some "Great for booking AA flights. Distance-based pricing." }

/-- Catalog entry `aadvantage`. -/
def aadvantage : TransferPartner :=
  { id := "aadvantage", name := "American Airlines AAdvantage", code := "AA",
    programs := [.MR, .UR, .TYP, .C1, .BILT],
    transferRatios := [(.MR, 1.0), (.UR, 1.0), (.TYP, 1.0), (.C1, 1.0), (.BILT, 1.0)],
    domesticEconomy := { saver := 12500, standard := 20000 },
    domesticFirst := { saver := 25000, standard := 45000 },
    domesticBusiness := none,
    valuationCPP := 1.4,
    sweetSpots :=
      [ { description := "Web Specials Economy",
          points := 7500, taxes := 5.60, cabin := .Economy, routePattern := none } ],
    bookingUrl := "https://www.aa.com/",
    notes := some "Look for Web Specials for better rates." }

/-- Catalog entry `delta`. -/
def delta : TransferPartner :=
  { id := "delta", name := "Delta SkyMiles", code := "DL",
    programs := [.MR],
    transferRatios := [(.MR, 1.0)],
    domesticEconomy := { saver := 12000, standard := 35000 },
    domesticFirst := { saver := 30000, standard := 80000 },
    domesticBusiness := none,
    valuationCPP := 1.2,
    sweetSpots := [],
    bookingUrl := "https://www.delta.com/",
    notes := some "Dynamic pricing. Flash sales occasionally." }

/-- Catalog entry `jetblue` (the one fractional transfer ratio: 0.8 from MR). -/
def jetblue : TransferPartner :=
  { id := "jetblue", name := "JetBlue TrueBlue", code := "B6",
    programs := [.MR, .UR, .TYP, .C1, .BILT],
    transferRatios := [(.MR, 0.8), (.UR, 1.0), (.TYP, 1.0), (.C1, 1.0), (.BILT, 1.0)],
    domesticEconomy := { saver := 6000, standard := 20000 },
    domesticFirst := { saver := 15000, standard := 45000 },
    domesticBusiness := none,
    valuationCPP := 1.3,
    sweetSpots :=
      [ { description := "Low-cost economy redemptions",
          points := 6000, taxes := 5.60, cabin := .Economy, routePattern := none } ],
    bookingUrl := "https://www.jetblue.com/",
    notes := some "Revenue-based. Best for cheap flights. Direct DCA-MIA routes." }

/-- Catalog entry `united`. -/
def united : TransferPartner :=
  { id := "united", name := "United MileagePlus", code := "UA",
    programs := [.UR, .TYP, .BILT],
    transferRatios := [(.UR, 1.0), (.TYP, 1.0), (.BILT, 1.0)],
    domesticEconomy := { saver := 12500, standard := 25000 },
    domesticFirst := { saver := 25000, standard := 50000 },
    domesticBusiness := none,
    valuationCPP := 1.2,
    sweetSpots := [],
    bookingUrl := "https://www.united.com/",
    notes := some "Dynamic pricing since 2023." }

/-- Catalog entry `southwest`. -/
def southwest : TransferPartner :=
  { id := "southwest", name := "Southwest Rapid Rewards", code := "WN",
    programs := [.UR, .C1, .BILT],
    transferRatios := [(.UR, 1.0), (.C1, 1.0), (.BILT, 1.0)],
    domesticEconomy := { saver := 8000, standard := 25000 },
    domesticFirst := { saver := 8000, standard := 25000 },
    domesticBusiness := none,
    valuationCPP := 1.3,
    sweetSpots := [],
    bookingUrl := "https://www.southwest.com/",
    notes := some "Revenue-based. No blackout dates." }

/-- Catalog entry `virgin-atlantic`. -/
def virginAtlantic : TransferPartner :=
  { id := "virgin-atlantic", name := "Virgin Atlantic Flying Club", code := "VS",
    programs := [.MR, .UR, .TYP, .C1, .BILT],
    transferRatios := [(.MR, 1.0), (.UR, 1.0), (.TYP, 1.0), (.C1, 1.0), (.BILT, 1.0)],
    domesticEconomy := { saver := 12500, standard := 20000 },
    domesticFirst := { saver := 25000, standard := 40000 },
    domesticBusiness := none,
    valuationCPP := 1.5,
    sweetSpots :=
      [ { description := "Book Delta domestic via Virgin",
          points := 12500, taxes := 5.60, cabin := .Economy, routePattern := none } ],
    bookingUrl := "https://www.virginatlantic.com/",
    notes := some "Can book Delta flights at better rates than SkyMiles." }

/-- Catalog entry `air-france-klm`. -/
def airFranceKLM : TransferPartner :=
  { id := "air-france-klm", name := "Air France/KLM Flying Blue", code := "AF",
    programs := [.MR, .UR, .TYP, .C1, .BILT],
    transferRatios := [(.MR, 1.0), (.UR, 1.0), (.TYP, 1.0), (.C1, 1.0), (.BILT, 1.0)],
    domesticEconomy := { saver := 12500, standard := 18750 },
    domesticFirst := { saver := 25000, standard := 37500 },
    domesticBusiness := none,
    valuationCPP := 1.4,
    sweetSpots :=
      [ { description := "Promo Rewards discounts",
          points := 10000, taxes := 5.60, cabin := .Economy, routePattern := none } ],
    bookingUrl := "https://www.flyingblue.com/",
    notes := some "Monthly Promo Rewards with discounts up to 50%." }

/-- The static catalog `TRANSFER_PARTNERS`, in declaration order. -/
def TRANSFER_PARTNERS : List TransferPartner :=
  [avianca, britishAirways, aadvantage, delta, jetblue, united, southwest,
   virginAtlantic, airFranceKLM]

/-- Embedding of `getPartnersForProgram` over an explicit catalog:
`catalog.filter(p => p.programs.includes(program))`. -/
def partnersForProgramIn (catalog : List TransferPartner)
    (program : PointsProgram) : List TransferPartner :=
  catalog.filter (fun p => p.programs.contains program)

/-- Repository instance of `getPartnersForProgram` (static catalog). -/
def getPartnersForProgram (program : PointsProgram) : List TransferPartner :=
  partnersForProgramIn TRANSFER_PARTNERS program

/-- A computed redemption option (`RedemptionOption` in
`src/utils/pointsCalculator.ts`). -/
structure RedemptionOption where
  partner : TransferPartner
  partnerPoints : ℚ
  sourcePoints : ℚ
  transferRatio : ℚ
  taxes : ℚ
  totalCost : ℚ
  cpp : ℚ
  isSweetSpot : Bool
  sweetSpotDescription : Option String
  recommendation : RecTier
  savingsVsCash : ℚ
deriving DecidableEq

/-- The aggregate analysis (`FlightRedemptionAnalysis`). -/
structure FlightRedemptionAnalysis where
  cashPrice : ℚ
  bestOption : BestOption
  bestRedemption : Option RedemptionOption
  allRedemptions : List RedemptionOption
  recommendation : String
  savingsAmount : ℚ
deriving DecidableEq

/-- Embedding of `calculateCPPForRedemption`: guard against zero source points, else
`((cashPrice - taxes) / sourcePoints) * 100`. -/
def calculateCPPForRedemption (cashPrice taxes sourcePoints : ℚ) : ℚ :=
  if sourcePoints = 0 then 0
  else ((cashPrice - taxes) / sourcePoints) * 100

/-- Embedding of `getRecommendation`: qualitative tier from CPP. -/
def getRecommendation (cpp : ℚ) : RecTier :=
  if 2.0 ≤ cpp then .EXCELLENT
  else if 1.5 ≤ cpp then .GOOD
  else if 1.0 ≤ cpp then .FAIR
  else .POOR

/-- The map body of `calculateAllRedemptions`: the redemption option built
for one eligible partner.  `Math.ceil` is `Int.ceil` on exact rationals;
`sweetSpot?.points ?? basePoints` and `sweetSpot?.taxes ?? 5.60` are the
`Option` fallbacks on the first cabin-matching sweet spot. -/
def redemptionFor (flight : FlightOffer) (userProgram : PointsProgram)
    (partner : TransferPartner) : RedemptionOption :=
  let basePoints :=
    if flight.cabin = Cabin.Economy then partner.domesticEconomy.saver
    else partner.domesticFirst.saver
  let transferRatio := orElseOne (ratioFor partner.transferRatios userProgram)
  let sweetSpot := partner.sweetSpots.find? (fun ss => ss.cabin == flight.cabin)
  let finalPartnerPoints := (sweetSpot.map SweetSpot.points).getD basePoints
  let finalSourcePoints : ℚ := ((finalPartnerPoints / transferRatio).ceil : ℤ)
  let taxes := (sweetSpot.map SweetSpot.taxes).getD 5.60
  let cpp := calculateCPPForRedemption flight.price taxes finalSourcePoints
  let programValuation := (POINTS_PROGRAMS userProgram).valuationCPP
  let pointsValueAtProgramRate := finalSourcePoints * (programValuation / 100)
  let totalPointsCost := pointsValueAtProgramRate + taxes
  let savingsVsCash := flight.price - totalPointsCost
  { partner := partner,
    partnerPoints := finalPartnerPoints,
    sourcePoints := finalSourcePoints,
    transferRatio := transferRatio,
    taxes := taxes,
    totalCost := totalPointsCost,
    cpp := cpp,
    isSweetSpot := sweetSpot.isSome,
    sweetSpotDescription := sweetSpot.map SweetSpot.description,
    recommendation := getRecommendation cpp,
    savingsVsCash := savingsVsCash }

/-- Embedding of `calculateAllRedemptions` over an explicit catalog: map the builder
over the eligible partners, then sort by the JS comparator
`(a, b) => b.cpp - a.cpp` (descending CPP, stable). -/
def calculateAllRedemptionsIn (catalog : List TransferPartner)
    (flight : FlightOffer) (userProgram : PointsProgram) : List RedemptionOption :=
  ((partnersForProgramIn catalog userProgram).map
    (redemptionFor flight userProgram)).mergeSort
      (fun a b => decide (b.cpp ≤ a.cpp))

/-- Repository instance of `calculateAllRedemptions`. -/
def calculateAllRedemptions (flight : FlightOffer)
    (userProgram : PointsProgram) : List RedemptionOption :=
  calculateAllRedemptionsIn TRANSFER_PARTNERS flight userProgram

/-- Embedding of `getBestRedemption`: head of the ranked list, or null. -/
def getBestRedemption (flight : FlightOffer)
    (userProgram : PointsProgram) : Option RedemptionOption :=
  (calculateAllRedemptions flight userProgram).head?

/-- Decimal rendering standing in for JS `toFixed(2)` inside narrative
strings: round `q` to the nearest hundredth (ties toward plus infinity),
print with two digits. -/
def toFixed2 (q : ℚ) : String :=
  let n : ℤ := ⌊q * 100 + 1 / 2⌋
  let sign := if n < 0 then "-" else ""
  let m := n.natAbs
  sign ++ toString (m / 100) ++ "." ++
    (if m % 100 < 10 then "0" else "") ++ toString (m % 100)

/-- Decimal rendering standing in for JS `toFixed(0)`. -/
def toFixed0 (q : ℚ) : String :=
  toString (⌊q + 1 / 2⌋ : ℤ)

/-- Rendering standing in for JS `toLocaleString()` on a number (digit
grouping abstracted as plain decimal text of the rational). -/
def toLocaleStringQ (q : ℚ) : String :=
  toString q.num ++ (if q.den = 1 then "" else "/" ++ toString q.den)

/-- Embedding of `analyzeFlightRedemption` over an explicit catalog.  Mirrors the
source: the no-partner early return, then the ordered cascade on the best
(first) ranked option; `userPointsBalance` feeds only the affordability
note of the sweet-spot branch. -/
def analyzeFlightRedemptionIn (catalog : List TransferPartner)
    (flight : FlightOffer) (userProgram : PointsProgram)
    (userPointsBalance : Option ℚ) : FlightRedemptionAnalysis :=
  let allRedemptions := calculateAllRedemptionsIn catalog flight userProgram
  match allRedemptions.head? with
  | none =>
    { cashPrice := flight.price, bestOption := .CASH, bestRedemption := none,
      allRedemptions := [],
      recommendation := "No transfer partners available for this program.",
      savingsAmount := 0 }
  | some best =>
    if best.isSweetSpot = true ∧ 1.5 ≤ best.cpp then
      let baseText := "SWEET SPOT! Use " ++ best.partner.name ++ " for " ++
        toFixed2 best.cpp ++ " CPP. " ++
        (match best.sweetSpotDescription with
         | some d => d
         | none => "undefined")
      let recText :=
        match userPointsBalance with
        | some b =>
          if b < best.sourcePoints then
            baseText ++ " (Need " ++ toLocaleStringQ (best.sourcePoints - b) ++
              " more points)"
          else baseText
        | none => baseText
      { cashPrice := flight.price, bestOption := .POINTS,
        bestRedemption := some best, allRedemptions := allRedemptions,
        recommendation := recText, savingsAmount := best.savingsVsCash }
    else if 2.0 ≤ best.cpp then
      { cashPrice := flight.price, bestOption := .POINTS,
        bestRedemption := some best, allRedemptions := allRedemptions,
        recommendation := "Excellent value! Use " ++ best.partner.name ++
          " at " ++ toFixed2 best.cpp ++ " CPP.",
        savingsAmount := best.savingsVsCash }
    else if 1.5 ≤ best.cpp then
      { cashPrice := flight.price, bestOption := .POINTS,
        bestRedemption := some best, allRedemptions := allRedemptions,
        recommendation := "Good value. Consider " ++ best.partner.name ++
          " at " ++ toFixed2 best.cpp ++ " CPP.",
        savingsAmount := best.savingsVsCash }
    else if (flight.cabin = Cabin.Economy ∧ flight.price < 150) ∨
            (flight.cabin = Cabin.First ∧ flight.price < 400) then
      { cashPrice := flight.price, bestOption := .CASH,
        bestRedemption := some best, allRedemptions := allRedemptions,
        recommendation := "Cash deal! This price is too low to justify using points (" ++
          toFixed2 best.cpp ++ " CPP).",
        savingsAmount := |best.savingsVsCash| }
    else if 1.0 ≤ best.cpp then
      let savings := |best.savingsVsCash|
      { cashPrice := flight.price,
        bestOption := if 0 < best.savingsVsCash then .POINTS else .CASH,
        bestRedemption := some best, allRedemptions := allRedemptions,
        recommendation :=
          if 0 < best.savingsVsCash then
            "Fair value. " ++ best.partner.name ++ " at " ++
              toFixed2 best.cpp ++ " CPP saves ~$" ++ toFixed0 savings ++ "."
          else
            "Consider cash. Points value (" ++ toFixed2 best.cpp ++
              " CPP) is marginal.",
        savingsAmount := savings }
    else
      { cashPrice := flight.price, bestOption := .CASH,
        bestRedemption := some best, allRedemptions := allRedemptions,
        recommendation := "Pay cash. Point value too low (" ++
          toFixed2 best.cpp ++ " CPP). Save points for better redemptions.",
        savingsAmount := |best.savingsVsCash| }

/-- Repository instance of `analyzeFlightRedemption`. -/
def analyzeFlightRedemption (flight : FlightOffer)
    (userProgram : PointsProgram) (userPointsBalance : Option ℚ) :
    FlightRedemptionAnalysis :=
  analyzeFlightRedemptionIn TRANSFER_PARTNERS flight userProgram userPointsBalance

/-- Effective saver-tier cost of a partner for a program and cabin, as
computed inside `getBestDomesticPartner`: saver award points for the cabin
divided by the transfer ratio (defaulted via JS `|| 1`). -/
def effectivePoints (program : PointsProgram) (cabin : Cabin)
    (p : TransferPartner) : ℚ :=
  (if cabin = Cabin.Economy then p.domesticEconomy.saver
   else p.domesticFirst.saver) /
    orElseOne (ratioFor p.transferRatios program)

/-- Embedding of `getBestDomesticPartner` over an explicit catalog: null on an empty
eligible list, else `partners.reduce(...)` keeping the current best unless
the candidate has strictly lower effective cost. -/
def getBestDomesticPartnerIn (catalog : List TransferPartner)
    (program : PointsProgram) (cabin : Cabin) : Option TransferPartner :=
  match partnersForProgramIn catalog program with
  | [] => none
  | h :: t =>
    some (t.foldl
      (fun best current =>
        if effectivePoints program cabin current <
            effectivePoints program cabin best then current else best) h)

/-- Repository instance of `getBestDomesticPartner`. -/
def getBestDomesticPartner (program : PointsProgram) (cabin : Cabin) :
    Option TransferPartner :=
  getBestDomesticPartnerIn TRANSFER_PARTNERS program cabin

/-- A concrete flight offer used to instantiate theorems; the metadata
fields are opaque to the engine. -/
def sampleFlight (price : ℚ) (cabin : Cabin) : FlightOffer :=
  { id := "dca-mia-1", date := "2025-03-14", airline := "American",
    flightNumber := "AA1001", departureTime := "08:05", origin := .DCA,
    destination := .MIA, price := price, currency := "USD",
    status := .STANDARD, stops := 0, cabin := cabin }

/-- The ordered six-rule decision policy of specification section 4.4,
written from the words of the spec: evaluated top to bottom, first match
wins, producing the decided option and the savings amount. -/
def specDecisionPolicy (flight : FlightOffer) (best : RedemptionOption) :
    BestOption × ℚ :=
  if best.isSweetSpot = true ∧ 1.5 ≤ best.cpp then
    (.POINTS, best.savingsVsCash)
  else if 2.0 ≤ best.cpp then
    (.POINTS, best.savingsVsCash)
  else if 1.5 ≤ best.cpp then
    (.POINTS, best.savingsVsCash)
  else if (flight.cabin = Cabin.Economy ∧ flight.price < 150) ∨
          (flight.cabin = Cabin.First ∧ flight.price < 400) then
    (.CASH, |best.savingsVsCash|)
  else if 1.0 ≤ best.cpp then
    (if 0 < best.savingsVsCash then BestOption.POINTS else BestOption.CASH,
      |best.savingsVsCash|)
  else
    (.CASH, |best.savingsVsCash|)

/-! ## Theorems -/

/-- The Batteries ceiling `Rat.ceil` agrees with the mathematical ceiling function. -/
theorem ratCeil_eq_ceil (q : ℚ) : (q.ceil : ℤ) = ⌈q⌉ := by
  rw [Rat.ceil]
  split
  · rename_i h
    have hq : (q.num : ℚ) = q := by
      rw [← Rat.den_eq_one_iff] at *
      exact h
    conv_rhs => rw [← hq]
    rw [Int.ceil_intCast]
  · rename_i h
    have hfl : q.num / (q.den : ℤ) = ⌊q⌋ := (Rat.floor_def).symm
    rw [hfl]
    symm
    rw [Int.ceil_eq_iff]
    have hne : (⌊q⌋ : ℚ) ≠ q := by
      intro he
      apply h
      have hden : q.den = ((⌊q⌋ : ℚ)).den := by rw [he]
      simpa using hden
    have hlt := lt_of_le_of_ne (Int.floor_le q) hne
    constructor
    · push_cast
      linarith
    · push_cast
      linarith [(Int.lt_floor_add_one q).le]

/-- Facts about `ceil(p / r)` for positive `p` and `r`: it is a
non-negative integer, and exceeds `p` when `r < 1`. -/
theorem ceil_div_facts (p r : ℚ) (hp : 0 < p) (hr : 0 < r) :
    0 ≤ ((p / r).ceil : ℚ) ∧ (∃ n : ℕ, ((p / r).ceil : ℚ) = (n : ℚ)) ∧
      (r < 1 → p < ((p / r).ceil : ℚ)) := by
  have hdiv : (0 : ℚ) < p / r := div_pos hp hr
  have hbr : ((p / r).ceil : ℤ) = ⌈p / r⌉ := ratCeil_eq_ceil (p / r)
  have hnn : 0 ≤ ⌈p / r⌉ := Int.ceil_nonneg hdiv.le
  refine ⟨?_, ?_, ?_⟩
  · rw [hbr]
    exact_mod_cast hnn
  · refine ⟨⌈p / r⌉.toNat, ?_⟩
    rw [hbr]
    exact_mod_cast (Int.toNat_of_nonneg hnn).symm
  · intro hr1
    have hle : (p / r : ℚ) ≤ (⌈p / r⌉ : ℚ) := Int.le_ceil _
    have hlt : p < p / r := by
      rw [lt_div_iff₀ hr]
      exact mul_lt_of_lt_one_right hp hr1
    rw [hbr]
    exact lt_of_lt_of_le hlt hle

/-- C4 counterexample: the claim asserts the CPP value is negative
whenever taxes exceed the cash price for any nonzero `sourcePoints`, but
at the concrete input `cashPrice = 0`, `taxes = 10`, `sourcePoints = -1`
(taxes exceed price, points nonzero) the function returns `1000 > 0`. -/
theorem c4_cpp_counterexample :
    calculateCPPForRedemption 0 10 (-1) = 1000 ∧
      ¬ calculateCPPForRedemption 0 10 (-1) < 0 := by
  constructor
  · norm_num [calculateCPPForRedemption]
  · norm_num [calculateCPPForRedemption]

/-- C4 amended: `calculateCPPForRedemption` with `sourcePoints = 0`
returns exactly `0`, with nonzero `sourcePoints` it returns
`((cashPrice - taxes) / sourcePoints) * 100`, and that value is negative
whenever taxes exceed the cash price and `sourcePoints` is positive (as
it is for every actual redemption). -/
theorem c4_cpp_amended (cashPrice taxes sourcePoints : ℚ) :
    calculateCPPForRedemption cashPrice taxes 0 = 0 ∧
      (sourcePoints ≠ 0 →
        calculateCPPForRedemption cashPrice taxes sourcePoints =
          ((cashPrice - taxes) / sourcePoints) * 100) ∧
      (0 < sourcePoints → cashPrice < taxes →
        calculateCPPForRedemption cashPrice taxes sourcePoints < 0) := by
  refine ⟨by norm_num [calculateCPPForRedemption], fun hne => ?_, fun hpos hlt => ?_⟩
  · rw [calculateCPPForRedemption, if_neg hne]
  · rw [calculateCPPForRedemption, if_neg (ne_of_gt hpos)]
    have hneg : cashPrice - taxes < 0 := by linarith
    have : (cashPrice - taxes) / sourcePoints < 0 := div_neg_of_neg_of_pos hneg hpos
    linarith

/-- C4 amended, instantiated: at `cashPrice = 100`, `taxes = 200`,
`sourcePoints = 5` the hypotheses hold and the CPP is negative. -/
theorem c4_cpp_amended_witness :
    (0 : ℚ) < 5 ∧ (100 : ℚ) < 200 ∧ calculateCPPForRedemption 100 200 5 < 0 :=
  ⟨by norm_num, by norm_num,
    (c4_cpp_amended 100 200 5).2.2 (by norm_num) (by norm_num)⟩

/-- C6: with zero eligible transfer partners the analysis is the
well-formed CASH record: null best redemption, empty list, zero savings,
the cash price of the flight, and the fixed narrative - no exception
path exists.  The catalog is the explicit parameter of the engine (the
repository instantiates it with `TRANSFER_PARTNERS`, under which every
program has at least one partner, so the guard is reachable only through
this parametrised form). -/
theorem c6_zero_partners (catalog : List TransferPartner)
    (flight : FlightOffer) (program : PointsProgram) (balance : Option ℚ)
    (h : partnersForProgramIn catalog program = []) :
    analyzeFlightRedemptionIn catalog flight program balance =
      { cashPrice := flight.price, bestOption := .CASH, bestRedemption := none,
        allRedemptions := [],
        recommendation := "No transfer partners available for this program.",
        savingsAmount := 0 } := by
  unfold analyzeFlightRedemptionIn calculateAllRedemptionsIn
  rw [h]
  simp

/-- C6 instantiated at the empty catalog: the hypothesis holds and the
analysis is the fixed CASH record. -/
theorem c6_zero_partners_witness :
    partnersForProgramIn [] .MR = [] ∧
      analyzeFlightRedemptionIn [] (sampleFlight 321 .Economy) .MR none =
        { cashPrice := 321, bestOption := .CASH, bestRedemption := none,
          allRedemptions := [],
          recommendation := "No transfer partners available for this program.",
          savingsAmount := 0 } :=
  ⟨rfl, c6_zero_partners [] (sampleFlight 321 .Economy) .MR none rfl⟩

/-- The comparator of `calculateAllRedemptions` is transitive. -/
theorem cppLE_trans (a b c : RedemptionOption)
    (hab : decide (b.cpp ≤ a.cpp) = true) (hbc : decide (c.cpp ≤ b.cpp) = true) :
    decide (c.cpp ≤ a.cpp) = true := by
  simp only [decide_eq_true_eq] at *
  exact le_trans hbc hab

/-- The comparator of `calculateAllRedemptions` is total. -/
theorem cppLE_total (a b : RedemptionOption) :
    (decide (b.cpp ≤ a.cpp) || decide (a.cpp ≤ b.cpp)) = true := by
  simp only [Bool.or_eq_true, decide_eq_true_eq]
  exact le_total _ _

/-- C2: the list returned by `calculateAllRedemptions` is sorted in
descending order of CPP, and the sort is stable: two options of equal CPP
that appear in a given order in the catalog-ordered input (the map of the
option builder over the eligible partners, which is in
catalog-declaration order) appear in that same order in the output. -/
theorem c2_sorted_and_stable (flight : FlightOffer) (program : PointsProgram) :
    (calculateAllRedemptions flight program).Pairwise
        (fun a b => b.cpp ≤ a.cpp) ∧
      (∀ a b : RedemptionOption, a.cpp = b.cpp →
        List.Sublist [a, b]
          ((getPartnersForProgram program).map (redemptionFor flight program)) →
        List.Sublist [a, b] (calculateAllRedemptions flight program)) := by
  constructor
  · have hs := List.sorted_mergeSort cppLE_trans cppLE_total
      ((getPartnersForProgram program).map (redemptionFor flight program))
    have : calculateAllRedemptions flight program =
        ((getPartnersForProgram program).map (redemptionFor flight program)).mergeSort
          (fun a b => decide (b.cpp ≤ a.cpp)) := rfl
    rw [this]
    exact hs.imp (fun h => of_decide_eq_true h)
  · intro a b hcpp hsub
    have : calculateAllRedemptions flight program =
        ((getPartnersForProgram program).map (redemptionFor flight program)).mergeSort
          (fun a b => decide (b.cpp ≤ a.cpp)) := rfl
    rw [this]
    exact List.pair_sublist_mergeSort cppLE_trans cppLE_total
      (by simp [hcpp]) hsub

/-- First-match property of `List.find?`: on a list
decomposed as `l1 ++ x :: l2` with every element of `l1` failing the
predicate and `x` satisfying it, the result is `x`. -/
theorem find?_first {α : Type} (p : α → Bool) :
    ∀ (l1 : List α) (x : α) (l2 : List α),
      (∀ y ∈ l1, p y = false) → p x = true →
      (l1 ++ x :: l2).find? p = some x := by
  intro l1
  induction l1 with
  | nil =>
    intro x l2 _ hx
    simpa using List.find?_cons_of_pos _ hx
  | cons y ys ih =>
    intro x l2 hall hx
    have hy : ¬ p y = true := by
      simp [hall y (List.mem_cons_self y ys)]
    rw [List.cons_append, List.find?_cons_of_neg _ hy]
    exact ih x l2 (fun z hz => hall z (List.mem_cons_of_mem y hz)) hx

/-- C3: the redemption option built for an eligible partner uses the
first sweet spot whose cabin equals the cabin of the flight when one
exists (its points, its taxes, flagged as a sweet spot and carrying its
description), and otherwise falls back to the saver-tier award for that
cabin with the default tax constant `5.60` and no sweet-spot flag. -/
theorem c3_sweet_spot_override (flight : FlightOffer) (program : PointsProgram)
    (partner : TransferPartner)
    (hmem : partner ∈ getPartnersForProgram program)
    (_hcab : flight.cabin = Cabin.Economy ∨ flight.cabin = Cabin.First) :
    (redemptionFor flight program partner) ∈ calculateAllRedemptions flight program ∧
    (∀ (l1 : List SweetSpot) (ss : SweetSpot) (l2 : List SweetSpot),
      partner.sweetSpots = l1 ++ ss :: l2 → ss.cabin = flight.cabin →
      (∀ s ∈ l1, s.cabin ≠ flight.cabin) →
      (redemptionFor flight program partner).partnerPoints = ss.points ∧
      (redemptionFor flight program partner).taxes = ss.taxes ∧
      (redemptionFor flight program partner).isSweetSpot = true ∧
      (redemptionFor flight program partner).sweetSpotDescription =
        some ss.description) ∧
    ((∀ s ∈ partner.sweetSpots, s.cabin ≠ flight.cabin) →
      (redemptionFor flight program partner).partnerPoints =
        (if flight.cabin = Cabin.Economy then partner.domesticEconomy.saver
         else partner.domesticFirst.saver) ∧
      (redemptionFor flight program partner).taxes = 5.60 ∧
      (redemptionFor flight program partner).isSweetSpot = false ∧
      (redemptionFor flight program partner).sweetSpotDescription = none) := by
  refine ⟨?_, ?_, ?_⟩
  · have : calculateAllRedemptions flight program =
        ((getPartnersForProgram program).map (redemptionFor flight program)).mergeSort
          (fun a b => decide (b.cpp ≤ a.cpp)) := rfl
    rw [this, List.mem_mergeSort]
    exact List.mem_map_of_mem _ hmem
  · intro l1 ss l2 hdec hss hnone
    have hfind : partner.sweetSpots.find? (fun s => s.cabin == flight.cabin) =
        some ss := by
      rw [hdec]
      refine find?_first _ l1 ss l2 (fun y hy => ?_) (by simp [hss])
      simpa using hnone y hy
    simp [redemptionFor, hfind]
  · intro hall
    have hfind : partner.sweetSpots.find? (fun s => s.cabin == flight.cabin) =
        none := by
      rw [List.find?_eq_none]
      intro s hs
      simpa using hall s hs
    simp [redemptionFor, hfind]

/-- C3 instantiated: the AAdvantage entry under MR for an Economy flight
matches its single Economy sweet spot (7500 points, taxes 5.60). -/
theorem c3_sweet_spot_override_witness :
    aadvantage ∈ getPartnersForProgram .MR ∧
    ((sampleFlight 500 .Economy).cabin = Cabin.Economy ∨
      (sampleFlight 500 .Economy).cabin = Cabin.First) ∧
    (redemptionFor (sampleFlight 500 .Economy) .MR aadvantage).partnerPoints = 7500 ∧
    (redemptionFor (sampleFlight 500 .Economy) .MR aadvantage).taxes = 5.60 ∧
    (redemptionFor (sampleFlight 500 .Economy) .MR aadvantage).isSweetSpot = true := by
  have hmem : aadvantage ∈ getPartnersForProgram .MR := by
    simp [getPartnersForProgram, partnersForProgramIn, TRANSFER_PARTNERS, aadvantage]
  have hcab : (sampleFlight 500 .Economy).cabin = Cabin.Economy ∨
      (sampleFlight 500 .Economy).cabin = Cabin.First := Or.inl rfl
  have h := (c3_sweet_spot_override (sampleFlight 500 .Economy) .MR aadvantage
    hmem hcab).2.1 []
    ({ description := "Web Specials Economy", points := 7500,
       taxes := 5.60, cabin := .Economy, routePattern := none } : SweetSpot) []
    (by simp [aadvantage]) rfl (by simp)
  exact ⟨hmem, hcab, h.1, h.2.1, h.2.2.1⟩

/-- Positivity facts about every catalog entry: all transfer ratios
resolve to a positive value for every program, and all award prices and
sweet-spot prices are positive. -/
theorem catalog_partner_facts :
    ∀ partner ∈ TRANSFER_PARTNERS, ∀ program : PointsProgram,
      0 < orElseOne (ratioFor partner.transferRatios program) ∧
      0 < partner.domesticEconomy.saver ∧ 0 < partner.domesticFirst.saver ∧
      ∀ s ∈ partner.sweetSpots, 0 < s.points := by
  intro partner hmem program
  fin_cases hmem <;> cases program <;>
    simp [orElseOne, ratioFor, avianca, britishAirways, aadvantage, delta,
      jetblue, united, southwest, virginAtlantic, airFranceKLM] <;> norm_num

/-- C7: for every eligible partner, the source points of the built
redemption option equal the ceiling of the partner points divided by the
resolved transfer ratio, are a non-negative integer, and strictly exceed
the partner points whenever the ratio is below one. -/
theorem c7_source_points_ceil (flight : FlightOffer) (program : PointsProgram)
    (partner : TransferPartner)
    (hmem : partner ∈ getPartnersForProgram program)
    (hcab : flight.cabin = Cabin.Economy ∨ flight.cabin = Cabin.First) :
    (redemptionFor flight program partner).sourcePoints =
      ((⌈(redemptionFor flight program partner).partnerPoints /
          orElseOne (ratioFor partner.transferRatios program)⌉ : ℤ) : ℚ) ∧
    0 ≤ (redemptionFor flight program partner).sourcePoints ∧
    (∃ n : ℕ, (redemptionFor flight program partner).sourcePoints = (n : ℚ)) ∧
    (orElseOne (ratioFor partner.transferRatios program) < 1 →
      (redemptionFor flight program partner).partnerPoints <
        (redemptionFor flight program partner).sourcePoints) := by
  have hmem' : partner ∈ TRANSFER_PARTNERS := by
    have h := hmem
    simp only [getPartnersForProgram, partnersForProgramIn, List.mem_filter] at h
    exact h.1
  obtain ⟨hr, he, hf, hsw⟩ := catalog_partner_facts partner hmem' program
  have hpp : 0 < (redemptionFor flight program partner).partnerPoints := by
    cases hfind : partner.sweetSpots.find? (fun s => s.cabin == flight.cabin) with
    | some s =>
      have hs := hsw s (List.mem_of_find?_eq_some hfind)
      simpa [redemptionFor, hfind] using hs
    | none =>
      have hbase : (redemptionFor flight program partner).partnerPoints =
          (if flight.cabin = Cabin.Economy then partner.domesticEconomy.saver
           else partner.domesticFirst.saver) := by
        simp [redemptionFor, hfind]
      rw [hbase]
      rcases hcab with h | h
      · rw [if_pos h]
        exact he
      · have hne : flight.cabin ≠ Cabin.Economy := by
          rw [h]
          exact fun hx => by cases hx
        rw [if_neg hne]
        exact hf
  have hsrc : (redemptionFor flight program partner).sourcePoints =
      ((((redemptionFor flight program partner).partnerPoints /
        orElseOne (ratioFor partner.transferRatios program)).ceil : ℤ) : ℚ) := rfl
  obtain ⟨h1, h2, h3⟩ := ceil_div_facts
    (redemptionFor flight program partner).partnerPoints
    (orElseOne (ratioFor partner.transferRatios program)) hpp hr
  refine ⟨?_, ?_, ?_, ?_⟩
  · rw [hsrc, ratCeil_eq_ceil]
  · rw [hsrc]; exact h1
  · rw [hsrc]; exact h2
  · intro hlt
    rw [hsrc]
    exact h3 hlt

/-- C7 instantiated at the JetBlue entry under MR (the catalog case with
ratio 0.8 < 1): a 6000-point Economy redemption needs 7500 source
points. -/
theorem c7_source_points_ceil_witness :
    jetblue ∈ getPartnersForProgram .MR ∧
    ((sampleFlight 100 .Economy).cabin = Cabin.Economy ∨
      (sampleFlight 100 .Economy).cabin = Cabin.First) ∧
    orElseOne (ratioFor jetblue.transferRatios .MR) < 1 ∧
    (redemptionFor (sampleFlight 100 .Economy) .MR jetblue).partnerPoints <
      (redemptionFor (sampleFlight 100 .Economy) .MR jetblue).sourcePoints := by
  have hmem : jetblue ∈ getPartnersForProgram .MR := by
    simp [getPartnersForProgram, partnersForProgramIn, TRANSFER_PARTNERS, jetblue]
  have hratio : orElseOne (ratioFor jetblue.transferRatios .MR) < 1 := by
    simp [orElseOne, ratioFor, jetblue] <;> norm_num
  exact ⟨hmem, Or.inl rfl, hratio,
    (c7_source_points_ceil (sampleFlight 100 .Economy) .MR jetblue hmem
      (Or.inl rfl)).2.2.2 hratio⟩

/-- The strict-improvement fold of `getBestDomesticPartner` selects the
first minimum of `f`: the fold result splits the traversed list into a
prefix of strictly more expensive elements and a suffix of elements at
least as expensive. -/
theorem foldl_pick_first_min {α : Type} (f : α → ℚ) :
    ∀ (t : List α) (h : α),
      ∃ l1 l2,
        h :: t = l1 ++
          (t.foldl (fun best current =>
            if f current < f best then current else best) h) :: l2 ∧
        (∀ p ∈ l1,
          f (t.foldl (fun best current =>
            if f current < f best then current else best) h) < f p) ∧
        (∀ p ∈ l2,
          f (t.foldl (fun best current =>
            if f current < f best then current else best) h) ≤ f p) := by
  intro t
  induction t with
  | nil =>
    intro h
    exact ⟨[], [], by simp, by simp, by simp⟩
  | cons c t ih =>
    intro h
    by_cases hc : f c < f h
    · have hstep : (c :: t).foldl (fun best current =>
          if f current < f best then current else best) h =
          t.foldl (fun best current =>
            if f current < f best then current else best) c := by
        simp only [List.foldl_cons]
        rw [if_pos hc]
      obtain ⟨l1, l2, hdec, hl1, hl2⟩ := ih c
      have hrc : f (t.foldl (fun best current =>
          if f current < f best then current else best) c) ≤ f c := by
        cases l1 with
        | nil =>
          have := hdec
          simp only [List.nil_append] at this
          rw [← (List.cons.injEq _ _ _ _).mp this |>.1]
        | cons a l1' =>
          have ha : a = c := by
            have := congrArg List.head? hdec
            simpa using this.symm
          exact (hl1 a (List.mem_cons_self a l1')).le.trans (le_of_eq (by rw [ha]))
      refine ⟨h :: l1, l2, ?_, ?_, ?_⟩
      · rw [hstep, List.cons_append, ← hdec]
      · intro p hp
        rw [hstep]
        rcases List.mem_cons.mp hp with rfl | hp'
        · exact lt_of_le_of_lt hrc hc
        · exact hl1 p hp'
      · intro p hp
        rw [hstep]
        exact hl2 p hp
    · have hstep : (c :: t).foldl (fun best current =>
          if f current < f best then current else best) h =
          t.foldl (fun best current =>
            if f current < f best then current else best) h := by
        simp only [List.foldl_cons]
        rw [if_neg hc]
      have hhc : f h ≤ f c := le_of_not_lt hc
      obtain ⟨l1, l2, hdec, hl1, hl2⟩ := ih h
      cases l1 with
      | nil =>
        have hr : h = t.foldl (fun best current =>
            if f current < f best then current else best) h := by
          have := hdec
          simp only [List.nil_append] at this
          exact ((List.cons.injEq _ _ _ _).mp this).1
        have ht : t = l2 := by
          have := hdec
          simp only [List.nil_append] at this
          exact ((List.cons.injEq _ _ _ _).mp this).2
        refine ⟨[], c :: l2, ?_, by simp, ?_⟩
        · rw [hstep, List.nil_append, ← hr, ht]
        · intro p hp
          rw [hstep]
          rcases List.mem_cons.mp hp with rfl | hp'
          · rw [← hr]
            exact hhc
          · exact hl2 p hp'
      | cons a l1' =>
        have hha : h = a := by
          have := congrArg List.head? hdec
          simpa using this
        have ht : t = l1' ++ (t.foldl (fun best current =>
            if f current < f best then current else best) h) :: l2 := by
          have := hdec
          rw [List.cons_append] at this
          exact ((List.cons.injEq _ _ _ _).mp this).2
        refine ⟨h :: c :: l1', l2, ?_, ?_, ?_⟩
        · rw [hstep, List.cons_append, List.cons_append]
          rw [← ht]
        · intro p hp
          rw [hstep]
          have hrh : f (t.foldl (fun best current =>
              if f current < f best then current else best) h) < f h := by
            have := hl1 a (List.mem_cons_self a l1')
            rw [← hha] at this
            exact this
          rcases List.mem_cons.mp hp with rfl | hp'
          · exact hrh
          · rcases List.mem_cons.mp hp' with rfl | hp''
            · exact lt_of_lt_of_le hrh hhc
            · exact hl1 p (List.mem_cons_of_mem a hp'')
        · intro p hp
          rw [hstep]
          exact hl2 p hp

/-- C9: `getBestDomesticPartner` is null exactly when no partner accepts
the program, and otherwise returns the eligible partner minimising
effective saver points (saver award for the cabin divided by the
defaulted transfer ratio), ties resolved to the earliest catalog entry:
every partner strictly before the result is strictly more expensive, and
every partner after it is at least as expensive. -/
theorem c9_best_domestic_partner (program : PointsProgram) (cabin : Cabin)
    (_hcab : cabin = Cabin.Economy ∨ cabin = Cabin.First) :
    (getBestDomesticPartner program cabin = none ↔
      getPartnersForProgram program = []) ∧
    (∀ r, getBestDomesticPartner program cabin = some r →
      ∃ l1 l2, getPartnersForProgram program = l1 ++ r :: l2 ∧
        (∀ p ∈ l1, effectivePoints program cabin r < effectivePoints program cabin p) ∧
        (∀ p ∈ l2, effectivePoints program cabin r ≤ effectivePoints program cabin p)) := by
  have hdef : getBestDomesticPartner program cabin =
      (match getPartnersForProgram program with
       | [] => none
       | h :: t =>
         some (t.foldl
           (fun best current =>
             if effectivePoints program cabin current <
                 effectivePoints program cabin best then current else best) h)) := rfl
  cases hp : getPartnersForProgram program with
  | nil =>
    rw [hdef, hp]
    exact ⟨by simp, fun r hr => by cases hr⟩
  | cons h t =>
    rw [hdef, hp]
    refine ⟨by simp, fun r hr => ?_⟩
    obtain ⟨l1, l2, hdec, hl1, hl2⟩ :=
      foldl_pick_first_min (effectivePoints program cabin) t h
    have hr' : r = t.foldl
        (fun best current =>
          if effectivePoints program cabin current <
              effectivePoints program cabin best then current else best) h :=
      (Option.some.injEq _ _).mp hr.symm
    rw [hr']
    exact ⟨l1, l2, by rw [← hdec], hl1, hl2⟩

/-- C9 instantiated at MR and Economy: the hypotheses hold and the
null-iff-empty equivalence is settled at a concrete program and cabin. -/
theorem c9_best_domestic_partner_witness :
    getBestDomesticPartner .MR .Economy = none ↔
      getPartnersForProgram .MR = [] :=
  (c9_best_domestic_partner .MR .Economy (Or.inl rfl)).1

/-- C1: whenever the program has at least one eligible partner (so the
ranked list has a head `best`), `analyzeFlightRedemption` decides
`bestOption` and `savingsAmount` exactly as the ordered six-rule policy
of spec section 4.4 applied to `best`, with the declared threshold
constants 1.5, 2.0, 150, 400 and 1.0. -/
theorem c1_ordered_decision_policy (flight : FlightOffer)
    (program : PointsProgram) (balance : Option ℚ) (best : RedemptionOption)
    (_hprice : 0 ≤ flight.price)
    (_hcab : flight.cabin = Cabin.Economy ∨ flight.cabin = Cabin.First)
    (hbest : (calculateAllRedemptions flight program).head? = some best) :
    (analyzeFlightRedemption flight program balance).bestOption =
      (specDecisionPolicy flight best).1 ∧
    (analyzeFlightRedemption flight program balance).savingsAmount =
      (specDecisionPolicy flight best).2 := by
  have hbest' : (calculateAllRedemptionsIn TRANSFER_PARTNERS flight program).head? =
      some best := hbest
  simp only [analyzeFlightRedemption, analyzeFlightRedemptionIn, hbest',
    specDecisionPolicy]
  split_ifs <;> simp

/-- The eligible partners for MR, in catalog order (United and Southwest
do not accept MR). -/
theorem partnersMR_eval : getPartnersForProgram .MR =
    [avianca, britishAirways, aadvantage, delta, jetblue, virginAtlantic,
     airFranceKLM] := by
  simp [getPartnersForProgram, partnersForProgramIn, TRANSFER_PARTNERS, avianca,
    britishAirways, aadvantage, delta, jetblue, united, southwest,
    virginAtlantic, airFranceKLM]

/-- Ranked list for a 120-dollar Economy flight under MR: AAdvantage
(sweet spot, 7500 points) ranks first, tied with JetBlue at the same CPP
but earlier in catalog order. -/
theorem allRedemptions_econ120 :
    calculateAllRedemptionsIn TRANSFER_PARTNERS (sampleFlight 120 .Economy) .MR =
    [redemptionFor (sampleFlight 120 .Economy) .MR aadvantage,
     redemptionFor (sampleFlight 120 .Economy) .MR jetblue,
     redemptionFor (sampleFlight 120 .Economy) .MR avianca,
     redemptionFor (sampleFlight 120 .Economy) .MR airFranceKLM,
     redemptionFor (sampleFlight 120 .Economy) .MR britishAirways,
     redemptionFor (sampleFlight 120 .Economy) .MR delta,
     redemptionFor (sampleFlight 120 .Economy) .MR virginAtlantic] := by
  have h0 : calculateAllRedemptionsIn TRANSFER_PARTNERS (sampleFlight 120 .Economy) .MR =
      ((getPartnersForProgram .MR).map (redemptionFor (sampleFlight 120 .Economy) .MR)).mergeSort
        (fun a b => decide (b.cpp ≤ a.cpp)) := rfl
  rw [h0, partnersMR_eval]
  simp only [List.map_cons, List.map_nil]
  norm_num [redemptionFor, orElseOne, ratioFor, calculateCPPForRedemption,
    getRecommendation, POINTS_PROGRAMS, Rat.ceil, sampleFlight, avianca,
    britishAirways, aadvantage, delta, jetblue, virginAtlantic, airFranceKLM,
    List.mergeSort, List.merge]

/-- Ranked list for a 130-dollar Economy flight under MR, same order. -/
theorem allRedemptions_econ130 :
    calculateAllRedemptionsIn TRANSFER_PARTNERS (sampleFlight 130 .Economy) .MR =
    [redemptionFor (sampleFlight 130 .Economy) .MR aadvantage,
     redemptionFor (sampleFlight 130 .Economy) .MR jetblue,
     redemptionFor (sampleFlight 130 .Economy) .MR avianca,
     redemptionFor (sampleFlight 130 .Economy) .MR airFranceKLM,
     redemptionFor (sampleFlight 130 .Economy) .MR britishAirways,
     redemptionFor (sampleFlight 130 .Economy) .MR delta,
     redemptionFor (sampleFlight 130 .Economy) .MR virginAtlantic] := by
  have h0 : calculateAllRedemptionsIn TRANSFER_PARTNERS (sampleFlight 130 .Economy) .MR =
      ((getPartnersForProgram .MR).map (redemptionFor (sampleFlight 130 .Economy) .MR)).mergeSort
        (fun a b => decide (b.cpp ≤ a.cpp)) := rfl
  rw [h0, partnersMR_eval]
  simp only [List.map_cons, List.map_nil]
  norm_num [redemptionFor, orElseOne, ratioFor, calculateCPPForRedemption,
    getRecommendation, POINTS_PROGRAMS, Rat.ceil, sampleFlight, avianca,
    britishAirways, aadvantage, delta, jetblue, virginAtlantic, airFranceKLM,
    List.mergeSort, List.merge]

/-- Ranked list for a 50-dollar Economy flight under MR, same order. -/
theorem allRedemptions_econ50 :
    calculateAllRedemptionsIn TRANSFER_PARTNERS (sampleFlight 50 .Economy) .MR =
    [redemptionFor (sampleFlight 50 .Economy) .MR aadvantage,
     redemptionFor (sampleFlight 50 .Economy) .MR jetblue,
     redemptionFor (sampleFlight 50 .Economy) .MR avianca,
     redemptionFor (sampleFlight 50 .Economy) .MR airFranceKLM,
     redemptionFor (sampleFlight 50 .Economy) .MR britishAirways,
     redemptionFor (sampleFlight 50 .Economy) .MR delta,
     redemptionFor (sampleFlight 50 .Economy) .MR virginAtlantic] := by
  have h0 : calculateAllRedemptionsIn TRANSFER_PARTNERS (sampleFlight 50 .Economy) .MR =
      ((getPartnersForProgram .MR).map (redemptionFor (sampleFlight 50 .Economy) .MR)).mergeSort
        (fun a b => decide (b.cpp ≤ a.cpp)) := rfl
  rw [h0, partnersMR_eval]
  simp only [List.map_cons, List.map_nil]
  norm_num [redemptionFor, orElseOne, ratioFor, calculateCPPForRedemption,
    getRecommendation, POINTS_PROGRAMS, Rat.ceil, sampleFlight, avianca,
    britishAirways, aadvantage, delta, jetblue, virginAtlantic, airFranceKLM,
    List.mergeSort, List.merge]

/-- C10: a CASH verdict always carries a non-negative savings amount (the
CASH branches take an absolute value and the no-partner branch returns
zero), while a POINTS verdict does not: the 130-dollar Economy flight
under MR is decided POINTS through the sweet-spot branch yet its savings
amount is strictly negative. -/
theorem c10_cash_nonneg_points_not :
    (∀ (flight : FlightOffer) (program : PointsProgram) (balance : Option ℚ),
      (analyzeFlightRedemption flight program balance).bestOption = .CASH →
      0 ≤ (analyzeFlightRedemption flight program balance).savingsAmount) ∧
    ((analyzeFlightRedemption (sampleFlight 130 .Economy) .MR none).bestOption =
        .POINTS ∧
      (analyzeFlightRedemption (sampleFlight 130 .Economy) .MR none).savingsAmount
        < 0) := by
  constructor
  · intro flight program balance
    simp only [analyzeFlightRedemption, analyzeFlightRedemptionIn]
    cases hh : (calculateAllRedemptionsIn TRANSFER_PARTNERS flight program).head? with
    | none =>
      intro _
      norm_num
    | some best =>
      dsimp only
      split_ifs <;> intro hcash <;> simp_all
  · have hbest : (analyzeFlightRedemption (sampleFlight 130 .Economy) .MR none) =
        analyzeFlightRedemptionIn TRANSFER_PARTNERS (sampleFlight 130 .Economy)
          .MR none := rfl
    rw [hbest]
    simp only [analyzeFlightRedemptionIn, allRedemptions_econ130]
    norm_num [redemptionFor, orElseOne, ratioFor, calculateCPPForRedemption,
      getRecommendation, POINTS_PROGRAMS, Rat.ceil, sampleFlight, aadvantage]

/-- C8: the user points balance never influences `bestOption`,
`savingsAmount`, `bestRedemption` or `allRedemptions`; two runs with any
two balances can differ only in the recommendation narrative, and only
when the decision sits in the sweet-spot branch (`best.isSweetSpot` and
`best.cpp ≥ 1.5`) with one of the supplied balances below
`best.sourcePoints`. -/
theorem c8_balance_noninterference (flight : FlightOffer)
    (program : PointsProgram) (b1 b2 : Option ℚ) :
    (analyzeFlightRedemption flight program b1).bestOption =
      (analyzeFlightRedemption flight program b2).bestOption ∧
    (analyzeFlightRedemption flight program b1).savingsAmount =
      (analyzeFlightRedemption flight program b2).savingsAmount ∧
    (analyzeFlightRedemption flight program b1).bestRedemption =
      (analyzeFlightRedemption flight program b2).bestRedemption ∧
    (analyzeFlightRedemption flight program b1).allRedemptions =
      (analyzeFlightRedemption flight program b2).allRedemptions ∧
    ((analyzeFlightRedemption flight program b1).recommendation ≠
        (analyzeFlightRedemption flight program b2).recommendation →
      ∃ best,
        (analyzeFlightRedemption flight program b1).bestRedemption = some best ∧
        best.isSweetSpot = true ∧ 1.5 ≤ best.cpp ∧
        ((∃ x, b1 = some x ∧ x < best.sourcePoints) ∨
          (∃ x, b2 = some x ∧ x < best.sourcePoints))) := by
  simp only [analyzeFlightRedemption, analyzeFlightRedemptionIn]
  cases hh : (calculateAllRedemptionsIn TRANSFER_PARTNERS flight program).head? with
  | none => simp
  | some best =>
    dsimp only
    by_cases h1 : best.isSweetSpot = true ∧ 1.5 ≤ best.cpp
    · rw [if_pos h1, if_pos h1]
      refine ⟨rfl, rfl, rfl, rfl, ?_⟩
      intro hne
      refine ⟨best, rfl, h1.1, h1.2, ?_⟩
      dsimp only at hne
      rcases b1 with _ | x1 <;> rcases b2 with _ | x2
      · exact absurd rfl hne
      · dsimp only at hne
        by_cases hx2 : x2 < best.sourcePoints
        · exact Or.inr ⟨x2, rfl, hx2⟩
        · rw [if_neg hx2] at hne
          exact absurd rfl hne
      · dsimp only at hne
        by_cases hx1 : x1 < best.sourcePoints
        · exact Or.inl ⟨x1, rfl, hx1⟩
        · rw [if_neg hx1] at hne
          exact absurd rfl hne
      · dsimp only at hne
        by_cases hx1 : x1 < best.sourcePoints
        · exact Or.inl ⟨x1, rfl, hx1⟩
        · by_cases hx2 : x2 < best.sourcePoints
          · exact Or.inr ⟨x2, rfl, hx2⟩
          · rw [if_neg hx1, if_neg hx2] at hne
            exact absurd rfl hne
    · rw [if_neg h1, if_neg h1]
      exact ⟨rfl, rfl, rfl, rfl, fun hne => absurd rfl hne⟩

/-- C5 counterexample: with the repository catalog, an Economy flight
priced 120 under MR is NOT decided CASH - the best option is the
AAdvantage Web Specials sweet spot at CPP 1144/750 ≥ 1.5, so the
sweet-spot branch fires first and returns POINTS before the cash-deal
check is reached. -/
theorem c5_econ120_counterexample :
    (analyzeFlightRedemption (sampleFlight 120 .Economy) .MR none).bestOption ≠
      BestOption.CASH := by
  have h : analyzeFlightRedemption (sampleFlight 120 .Economy) .MR none =
      analyzeFlightRedemptionIn TRANSFER_PARTNERS (sampleFlight 120 .Economy)
        .MR none := rfl
  rw [h]
  simp only [analyzeFlightRedemptionIn, allRedemptions_econ120]
  norm_num [redemptionFor, orElseOne, ratioFor, calculateCPPForRedemption,
    getRecommendation, POINTS_PROGRAMS, Rat.ceil, sampleFlight, aadvantage]
  simp

/-- C5 amended: for the 120-dollar Economy flight under MR with the
repository catalog, the best option is the AAdvantage sweet spot with
CPP at least 1.5, so `analyzeFlightRedemption` returns POINTS through the
sweet-spot branch with savings equal to `best.savingsVsCash`; the
cabin-aware cash-deal check is never reached. -/
theorem c5_econ120_amended :
    (analyzeFlightRedemption (sampleFlight 120 .Economy) .MR none).bestOption =
      BestOption.POINTS ∧
    (analyzeFlightRedemption (sampleFlight 120 .Economy) .MR none).bestRedemption =
      some (redemptionFor (sampleFlight 120 .Economy) .MR aadvantage) ∧
    (redemptionFor (sampleFlight 120 .Economy) .MR aadvantage).isSweetSpot = true ∧
    1.5 ≤ (redemptionFor (sampleFlight 120 .Economy) .MR aadvantage).cpp ∧
    (analyzeFlightRedemption (sampleFlight 120 .Economy) .MR none).savingsAmount =
      (redemptionFor (sampleFlight 120 .Economy) .MR aadvantage).savingsVsCash := by
  have h : analyzeFlightRedemption (sampleFlight 120 .Economy) .MR none =
      analyzeFlightRedemptionIn TRANSFER_PARTNERS (sampleFlight 120 .Economy)
        .MR none := rfl
  rw [h]
  simp only [analyzeFlightRedemptionIn, allRedemptions_econ120]
  norm_num [redemptionFor, orElseOne, ratioFor, calculateCPPForRedemption,
    getRecommendation, POINTS_PROGRAMS, Rat.ceil, sampleFlight, aadvantage]

/-- C1 instantiated at the 120-dollar Economy MR flight: the ranked list
has the AAdvantage sweet-spot option at its head and the engine agrees
with the spec policy there. -/
theorem c1_ordered_decision_policy_witness :
    (0 : ℚ) ≤ (sampleFlight 120 .Economy).price ∧
    ((sampleFlight 120 .Economy).cabin = Cabin.Economy ∨
      (sampleFlight 120 .Economy).cabin = Cabin.First) ∧
    (calculateAllRedemptions (sampleFlight 120 .Economy) .MR).head? =
      some (redemptionFor (sampleFlight 120 .Economy) .MR aadvantage) ∧
    (analyzeFlightRedemption (sampleFlight 120 .Economy) .MR none).bestOption =
      (specDecisionPolicy (sampleFlight 120 .Economy)
        (redemptionFor (sampleFlight 120 .Economy) .MR aadvantage)).1 ∧
    (analyzeFlightRedemption (sampleFlight 120 .Economy) .MR none).savingsAmount =
      (specDecisionPolicy (sampleFlight 120 .Economy)
        (redemptionFor (sampleFlight 120 .Economy) .MR aadvantage)).2 := by
  have hhead : (calculateAllRedemptions (sampleFlight 120 .Economy) .MR).head? =
      some (redemptionFor (sampleFlight 120 .Economy) .MR aadvantage) := by
    have h0 : calculateAllRedemptions (sampleFlight 120 .Economy) .MR =
        calculateAllRedemptionsIn TRANSFER_PARTNERS (sampleFlight 120 .Economy)
          .MR := rfl
    rw [h0, allRedemptions_econ120]
    rfl
  have h := c1_ordered_decision_policy (sampleFlight 120 .Economy) .MR none
    (redemptionFor (sampleFlight 120 .Economy) .MR aadvantage)
    (by norm_num [sampleFlight]) (Or.inl rfl) hhead
  exact ⟨by norm_num [sampleFlight], Or.inl rfl, hhead, h.1, h.2⟩

/-- C2 instantiated at the 120-dollar Economy MR flight: AAdvantage and
JetBlue tie at CPP 1144/750 and keep their catalog order (AAdvantage
first) in the sorted output. -/
theorem c2_sorted_and_stable_witness :
    (redemptionFor (sampleFlight 120 .Economy) .MR aadvantage).cpp =
      (redemptionFor (sampleFlight 120 .Economy) .MR jetblue).cpp ∧
    List.Sublist
      [redemptionFor (sampleFlight 120 .Economy) .MR aadvantage,
       redemptionFor (sampleFlight 120 .Economy) .MR jetblue]
      ((getPartnersForProgram .MR).map (redemptionFor (sampleFlight 120 .Economy) .MR)) ∧
    List.Sublist
      [redemptionFor (sampleFlight 120 .Economy) .MR aadvantage,
       redemptionFor (sampleFlight 120 .Economy) .MR jetblue]
      (calculateAllRedemptions (sampleFlight 120 .Economy) .MR) := by
  have hcpp : (redemptionFor (sampleFlight 120 .Economy) .MR aadvantage).cpp =
      (redemptionFor (sampleFlight 120 .Economy) .MR jetblue).cpp := by
    norm_num [redemptionFor, orElseOne, ratioFor, calculateCPPForRedemption,
      getRecommendation, POINTS_PROGRAMS, Rat.ceil, sampleFlight, aadvantage, jetblue]
  have hsub : List.Sublist
      [redemptionFor (sampleFlight 120 .Economy) .MR aadvantage,
       redemptionFor (sampleFlight 120 .Economy) .MR jetblue]
      ((getPartnersForProgram .MR).map (redemptionFor (sampleFlight 120 .Economy) .MR)) := by
    rw [partnersMR_eval]
    simp only [List.map_cons, List.map_nil]
    exact List.Sublist.cons _ (List.Sublist.cons _ (List.Sublist.cons₂ _
      (List.Sublist.cons _ (List.Sublist.cons₂ _ (List.Sublist.cons _
        (List.Sublist.cons _ List.Sublist.slnil))))))
  exact ⟨hcpp, hsub,
    (c2_sorted_and_stable (sampleFlight 120 .Economy) .MR).2 _ _ hcpp hsub⟩

/-- C8 instantiated: a zero balance and no balance give the same
decision on the 120-dollar Economy MR flight. -/
theorem c8_balance_noninterference_witness :
    (analyzeFlightRedemption (sampleFlight 120 .Economy) .MR (some 0)).bestOption =
      (analyzeFlightRedemption (sampleFlight 120 .Economy) .MR none).bestOption :=
  (c8_balance_noninterference (sampleFlight 120 .Economy) .MR (some 0) none).1

/-- C10 instantiated: the 50-dollar Economy MR flight is decided CASH and
its savings amount is non-negative. -/
theorem c10_cash_nonneg_witness :
    (analyzeFlightRedemption (sampleFlight 50 .Economy) .MR none).bestOption =
      BestOption.CASH ∧
    0 ≤ (analyzeFlightRedemption (sampleFlight 50 .Economy) .MR none).savingsAmount := by
  have hcash : (analyzeFlightRedemption (sampleFlight 50 .Economy) .MR none).bestOption =
      BestOption.CASH := by
    have h : analyzeFlightRedemption (sampleFlight 50 .Economy) .MR none =
        analyzeFlightRedemptionIn TRANSFER_PARTNERS (sampleFlight 50 .Economy)
          .MR none := rfl
    rw [h]
    simp only [analyzeFlightRedemptionIn, allRedemptions_econ50]
    norm_num [redemptionFor, orElseOne, ratioFor, calculateCPPForRedemption,
      getRecommendation, POINTS_PROGRAMS, Rat.ceil, sampleFlight, aadvantage]
  exact ⟨hcash, c10_cash_nonneg_points_not.1 _ .MR none hcash⟩

end FlightAnalyzer
